import Mathlib

/-!
Verification of the credential-client composition engine of aws-runas.

The Go source is shallowly embedded: pure helpers (`cacheFileName`, the ARN
helpers from the AWS SDK it calls) become Lean functions over `String`;
the stateful authentication client (`baseClient` in the `external` package)
becomes a record with explicit state passing; HTTP transports, interactive
input providers and the config resolver become explicit oracle parameters;
Go's `(value, error)` returns become `Except` / `Option` results.
-/

/-- Model of a Go `error` value.  `url.Error` carries the request URL
(`e.URL` in Go); every other error shape is kept as its message. -/
inductive GoError
  | urlError (u : String) (msg : String)
  | simple (msg : String)
deriving DecidableEq, Repr

/-- Finds the first occurrence of `sep` in a character list, returning the
characters before it and the characters after it (Go `strings.Index` +
slicing, as used by `strings.SplitN`). -/
def splitFirst (sep : Char) : List Char → Option (List Char × List Char)
  | [] => none
  | c :: cs =>
    if c = sep then some ([], cs)
    else
      match splitFirst sep cs with
      | none => none
      | some (pre, post) => some (c :: pre, post)

/-- Go `strings.SplitN(s, sep, fuel+1)` over character lists: performs at
most `fuel` splits, the final piece keeps any remaining separators. -/
def splitNChars (sep : Char) : Nat → List Char → List (List Char)
  | 0, cs => [cs]
  | Nat.succ n, cs =>
    match splitFirst sep cs with
    | none => [cs]
    | some (pre, post) => pre :: splitNChars sep n post

/-- Go `strings.Split(s, sep)` (unbounded) over character lists.  A list of
length `n` admits at most `n` splits, so `n` is enough fuel. -/
def splitAllChars (sep : Char) (cs : List Char) : List (List Char) :=
  splitNChars sep cs.length cs

/-- Number of occurrences of `c` in `s` (Go `strings.Count` for a
single-character separator). -/
def countChar (s : String) (c : Char) : Nat :=
  (s.data.filter (fun x => x = c)).length

/-- Go `strings.HasPrefix(s, pfx)`, over the character lists of the two
strings. -/
def goHasPrefix (pfx s : String) : Bool :=
  pfx.data.isPrefixOf s.data

/-- The parsed ARN structure of the AWS SDK (`arn.ARN`), restricted to the
fields the program reads. -/
structure ARN where
  part : String
  service : String
  region : String
  accountID : String
  resource : String
deriving DecidableEq, Repr

/-- AWS SDK `arn.IsARN`: the string starts with `arn:` and has at least
five colons. -/
def arnIsARN (s : String) : Bool :=
  goHasPrefix "arn:" s && decide (5 ≤ countChar s ':')

/-- AWS SDK `arn.Parse`: split on `:` into at most six sections; exactly
six sections are required, the sixth keeping any further colons. -/
def arnParse (s : String) : Option ARN :=
  if goHasPrefix "arn:" s then
    match splitNChars ':' 5 s.data with
    | [_, p, sv, rg, acct, res] =>
      some ⟨String.mk p, String.mk sv, String.mk rg, String.mk acct, String.mk res⟩
    | _ => none
  else none

/-- `arn.Parse` with its error ignored, as the program does
(`roleArn, _ := arn.Parse(role)`): a failed parse leaves the zero `ARN`. -/
def arnParseD (s : String) : ARN :=
  (arnParse s).getD ⟨"", "", "", "", ""⟩

/-- Last element of Go `strings.Split(r, "/")`
(`roleParts[len(roleParts)-1]`); `Split` never returns an empty slice. -/
def lastSlashSegment (r : String) : String :=
  String.mk ((splitAllChars '/' r.data).getLastD [])

/-- The cache key computed inside `cacheFileName`: the `profile` variable
after the conditional rewrite from the role ARN. -/
def cacheKey (profile role : String) : String :=
  if profile.length < 1 && arnIsARN role then
    (arnParseD role).accountID ++ "-" ++ lastSlashSegment (arnParseD role).resource
  else profile

/-- `cacheFileName(prefix, profile, role)` without the leading cache
directory: the source joins this base name onto `cachePath()`, a directory
taken from the process environment, which is outside the model. -/
def cacheFileName (pfx profile role : String) : String :=
  pfx ++ "_" ++ cacheKey profile role

/-- Mutable state of the `external.baseClient` authentication client: the
embedded `AuthenticationClientConfig` fields the shown code reads or
writes, plus the held SAML assertion (`c.saml`, a nullable pointer in Go,
hence an `Option`). -/
structure BaseClientM where
  Username : String
  Password : String
  MfaTokenCode : String
  MfaType : String
  saml : Option String
deriving DecidableEq, Repr

/-- One `<input>` element of the parsed IdP response, in document order, as
seen through goquery: `s.Attr("name")` and `s.Attr("value")` each return a
value and an ok flag, hence `Option`s. -/
structure InputElem where
  nameAttr : Option String
  valueAttr : Option String
deriving DecidableEq, Repr

/-- Whether the element satisfies the source's guard
`a, ok := s.Attr("name"); ok && a == "SAMLResponse"`. -/
def isSamlInput (s : InputElem) : Bool :=
  match s.nameAttr with
  | some a => a == "SAMLResponse"
  | none => false

/-- A missing `value` attribute yields Go's zero string
(`v, _ := s.Attr("value")`). -/
def inputValue (s : InputElem) : String :=
  s.valueAttr.getD ""

/-- `baseClient.handleSamlResponse`: iterate over every `<input>` element
of the document (goquery `doc.Find("input").Each`) and, on each element
named `SAMLResponse`, overwrite the held assertion with its `value`
attribute.  Parsing the in-memory byte slice never fails, so the Go
function's only return value is `nil`; the model returns the new state. -/
def handleSamlResponse (st : BaseClientM) (inputs : List InputElem) : BaseClientM :=
  inputs.foldl
    (fun acc s => if isSamlInput s then { acc with saml := some (inputValue s) } else acc)
    st

/-- The assertion value the claim attributes to the function: the FIRST
`SAMLResponse` input's `value`.  Stated from the spec's words, for
comparison with what the source computes. -/
def firstSamlValue (inputs : List InputElem) : Option String :=
  ((inputs.filter isSamlInput).head?).map inputValue

/-- The assertion value the source actually keeps: the LAST `SAMLResponse`
input's `value`. -/
def lastSamlValue (inputs : List InputElem) : Option String :=
  ((inputs.filter isSamlInput).getLast?).map inputValue

/-- Outcome of one `baseClient.samlRequest` call, separating the
no-network early return (`cached`) from a performed GET (`fetched` /
`transportError`) and from the expiry-parse failure, which also performs
no network call. -/
inductive SamlOutcome
  | cached (st : BaseClientM)
  | fetched (st : BaseClientM)
  | expiryError (e : GoError) (st : BaseClientM)
  | transportError (e : GoError) (st : BaseClientM)
deriving DecidableEq, Repr

/-- Message of a modelled Go error, for `fmt.Errorf` wrapping. -/
def goErrMsg : GoError → String
  | .urlError _ m => m
  | .simple m => m

/-- The network leg of `samlRequest`: issue the GET (its outcome is the
`net` oracle: a transport error, or the parsed `<input>` elements of the
response body) and hand the body to `handleSamlResponse`.  A transport
error is wrapped as `fmt.Errorf("SAML request error %w", err)`. -/
def samlFetchStep (net : Except GoError (List InputElem)) (st : BaseClientM) : SamlOutcome :=
  match net with
  | .error e => .transportError (.simple ("SAML request error " ++ goErrMsg e)) st
  | .ok inputs => .fetched (handleSamlResponse st inputs)

/-- `baseClient.samlRequest`: if a non-nil, non-empty assertion is held,
derive its expiry (`c.saml.ExpiresAt()`, an external parse modelled by the
`expiresAt` oracle); a parse failure is returned as-is, and an expiry
strictly after `now` (`t.After(time.Now())`) returns with no network
call.  Otherwise perform the GET. -/
def samlRequest (expiresAt : String → Except GoError Nat) (now : Nat)
    (net : Except GoError (List InputElem)) (st : BaseClientM) : SamlOutcome :=
  match st.saml with
  | some s =>
    if 0 < s.length then
      match expiresAt s with
      | .error e => .expiryError e st
      | .ok t => if now < t then .cached st else samlFetchStep net st
    else samlFetchStep net st
  | none => samlFetchStep net st

/-- Modelled from the spec: the vendor clients' `SamlAssertion()` entry
point is not under the shown source; per the spec it ensures a fresh
assertion via `samlRequest` and then returns the held assertion, so a
`samlRequest` failure is its failure and otherwise the (possibly empty)
held assertion is returned together with the client state. -/
def samlAssertionM (expiresAt : String → Except GoError Nat) (now : Nat)
    (net : Except GoError (List InputElem)) (st : BaseClientM) :
    Except GoError (Option String × BaseClientM) :=
  match samlRequest expiresAt now net st with
  | .cached st2 => .ok (st2.saml, st2)
  | .fetched st2 => .ok (st2.saml, st2)
  | .expiryError e _ => .error e
  | .transportError e _ => .error e

/-- Modelled from the spec: the `external` package's MFA-type constant for
one-time-code MFA (`MfaTypeCode`), whose definition is outside the shown
source; the spec names the type `code`. -/
def MfaTypeCode : String := "code"

/-- The pluggable input providers of `gatherCredentials`: the interactive
username/password provider (`c.CredentialInputProvider`, taking the current
username and password) and the optional MFA-token provider
(`c.MfaTokenProvider`, a nullable function pointer). -/
structure GatherEnv where
  credProvider : String → String → Except GoError (String × String)
  mfaProvider : Option (Unit → Except GoError String)

/-- Result of one `gatherCredentials` call: the returned error (if any),
the client state afterwards, and how many times each provider was
invoked. -/
structure GatherResult where
  err : Option GoError
  state : BaseClientM
  credCalls : Nat
  mfaCalls : Nat
deriving DecidableEq, Repr

/-- The MFA half of `gatherCredentials`: when MFA type is `code`, no code
is held and a provider is configured, invoke it and store the result; a
provider failure is returned with the state unchanged. -/
def gatherMfaStep (env : GatherEnv) (st : BaseClientM) (credCalls : Nat) : GatherResult :=
  if st.MfaType = MfaTypeCode ∧ st.MfaTokenCode.length < 1 ∧ env.mfaProvider.isSome = true then
    match env.mfaProvider with
    | some f =>
      match f () with
      | .error e => ⟨some e, st, credCalls, 1⟩
      | .ok m => ⟨none, { st with MfaTokenCode := m }, credCalls, 1⟩
    | none => ⟨none, st, credCalls, 0⟩
  else ⟨none, st, credCalls, 0⟩

/-- `baseClient.gatherCredentials`: when username or password is missing,
invoke the credential-input provider with the current values and store
both results (a failure is returned verbatim, storing nothing); then the
MFA step. -/
def gatherCredentials (env : GatherEnv) (st : BaseClientM) : GatherResult :=
  if st.Username.length < 1 ∨ st.Password.length < 1 then
    match env.credProvider st.Username st.Password with
    | .error e => ⟨some e, st, 1, 0⟩
    | .ok (u, p) => gatherMfaStep env { st with Username := u, Password := p } 1
  else gatherMfaStep env st 0

/-- Outcome of `httpClient.Do` as `oauthAuthorize` needs it: a `*url.Error`
(whose `URL` field is inspected), any other error, or a response with a
status code and optional `Location` header. -/
inductive HttpDoResult
  | urlErr (u : String) (msg : String)
  | otherErr (e : GoError)
  | response (status : Nat) (location : Option String)
deriving DecidableEq, Repr

/-- `baseClient.oauthAuthorize`, with the transport abstracted: `doFollow`
is the outcome of the redirect-following client, `doNoFollow` that of the
`ErrUseLastResponse` client, and `query` models `url.Parse(u).Query()`.
On a `*url.Error` whose URL has the configured redirect URI as a prefix,
the query parameters of that URL are the successful result; any other
error is returned as the failure.  A non-error response must be HTTP 302
and its `Location` query parameters are returned. -/
def oauthAuthorize (redirectUri : String) (query : String → List (String × String))
    (doFollow doNoFollow : HttpDoResult) (followRedirect : Bool) :
    Except GoError (List (String × String)) :=
  let res := if followRedirect then doFollow else doNoFollow
  match res with
  | .urlErr u msg =>
    if goHasPrefix redirectUri u then .ok (query u)
    else .error (.urlError u msg)
  | .otherErr e => .error e
  | .response status location =>
    if status ≠ 302 then .error (.simple ("http status " ++ toString status))
    else
      match location with
      | some l => .ok (query l)
      | none => .error (.simple "http: no Location header in response")

/-- `config.AwsConfig`, restricted to the fields the factory reads.
`RoleCredentialDuration` models the method of the same name of the
external `config` package; durations are abstract time quantities ordered
as `Nat`s. -/
structure AwsConfig where
  ProfileName : String
  RoleArn : String
  SamlUrl : String
  WebIdentityUrl : String
  JumpRoleArn : String
  SrcProfile : String
  MfaSerial : String
  MfaCode : String
  MfaType : String
  SamlUsername : String
  SamlProvider : String
  FederatedUsername : String
  WebIdentityUsername : String
  WebIdentityClientId : String
  WebIdentityRedirectUri : String
  WebIdentityProvider : String
  WebIdentityTokenFile : String
  RoleSessionName : String
  ExternalId : String
  Region : String
  SessionTokenDuration : Nat
  RoleCredentialDuration : Nat
deriving DecidableEq, Repr

/-- `config.AwsCredentials`, restricted to the fields the factory reads. -/
structure AwsCredentials where
  SamlPassword : String
  WebIdentityPassword : String
deriving DecidableEq, Repr

/-- `credentials.AssumeRoleDurationDefault`.  Modelled from the spec: the
`credentials` package is outside the shown source; the source comments and
the spec fix it at the cloud provider's 1-hour chained-session ceiling
(here in seconds). -/
def AssumeRoleDurationDefault : Nat := 3600

/-- The `external.AuthenticationClientConfig` fields the factory fills for
a SAML client (the function-valued provider fields live in the oracle
environment instead). -/
structure AuthClientCfg where
  Username : String
  Password : String
  MfaTokenCode : String
  MfaType : String
  IdentityProviderName : String
  FederatedUsername : String
deriving DecidableEq, Repr

/-- `SamlRoleClientConfig`: authentication config plus the role-provider
settings.  The cache is identified by its file name (`none` when caching
is disabled and the field stays nil). -/
structure SamlRoleClientCfgM where
  auth : AuthClientCfg
  Cache : Option String
  Duration : Nat
  RoleArn : String
deriving DecidableEq, Repr

/-- The `samlRoleClient` built by `NewSamlRoleClient`: the external SAML
client (URL and authentication config) plus the SAML role provider (role
ARN, duration, cache, held assertion).  The provider starts with an empty
assertion (`new(credentials.SamlAssertion)`). -/
structure SamlRoleClientM where
  url : String
  auth : AuthClientCfg
  providerRoleArn : String
  providerDuration : Nat
  providerCache : Option String
  heldAssertion : Option String
deriving DecidableEq, Repr

/-- `NewSamlRoleClient(ses, url, samlCfg)`. -/
def newSamlRoleClient (url : String) (c : SamlRoleClientCfgM) : SamlRoleClientM :=
  { url := url
    auth := c.auth
    providerRoleArn := c.RoleArn
    providerDuration := c.Duration
    providerCache := c.Cache
    heldAssertion := none }

/-- The `webRoleClient` configuration/state built by `Factory.webClient`
(`WebRoleClientConfig` fields the factory sets, with the function-valued
providers in the oracle environment), plus the held identity token for the
jump-role path. -/
structure WebRoleClientM where
  url : String
  RoleArn : String
  Duration : Nat
  MfaType : String
  MfaTokenCode : String
  Username : String
  Password : String
  FederatedUsername : String
  ClientId : String
  RedirectUri : String
  IdentityProviderName : String
  WebIdentityTokenFile : String
  cache : Option String
  heldToken : Option String
deriving DecidableEq, Repr

/-- The `sessionTokenClient` built by `Factory.sessionClient`
(`SessionTokenClientConfig` fields). -/
structure SessionTokenClientM where
  Duration : Nat
  SerialNumber : String
  TokenCode : String
  cache : Option String
deriving DecidableEq, Repr

/-- The `ident` back-reference of a composed client: which upstream client
answers `Identity()`/`Roles()` by delegation.  `selfIdent` is the default
(the client's own STS-based identity). -/
inductive IdentM
  | selfIdent
  | samlIdent (base : SamlRoleClientM)
  | webIdent (base : WebRoleClientM)
  | sessionIdent (sc : SessionTokenClientM)
deriving DecidableEq, Repr

/-- What `ses.Config.Credentials` was set to when the assume-role client
was built: the session's default chain, a base SAML/web role provider
(role chaining), or an internally built session-token client's
credentials. -/
inductive SesCredsM
  | chainDefault
  | samlProvider (base : SamlRoleClientM)
  | webProvider (base : WebRoleClientM)
  | sessionCreds (sc : SessionTokenClientM)
deriving DecidableEq, Repr

/-- The `assumeRoleClient` built by `NewAssumeRoleClient`:
`AssumeRoleClientConfig` fields plus the `ident` back-reference and the
credential source installed in its AWS session. -/
structure AssumeRoleClientM where
  RoleArn : String
  RoleSessionName : String
  ExternalId : String
  Duration : Nat
  SerialNumber : String
  TokenCode : String
  cache : Option String
  ident : IdentM
  sesCreds : SesCredsM
deriving DecidableEq, Repr

/-- The `AwsClient` returned by `Factory.Get`: one of the four composed
client variants. -/
inductive AwsClientM
  | saml (c : SamlRoleClientM)
  | web (c : WebRoleClientM)
  | assumeRole (c : AssumeRoleClientM)
  | sessionToken (c : SessionTokenClientM)
deriving DecidableEq, Repr

/-- The factory's collaborators, as oracles: the `Options` flags, the
config resolver, credential merging and password decoding (external
`config`/`helpers` packages), and the outcomes of the two initial
network fetches performed inside `Factory.samlClient` /
`Factory.webClient` (`SamlAssertion()` and `FetchToken`). -/
structure FactoryEnv where
  enableCache : Bool
  validate : AwsConfig → Option GoError
  resolveCreds : String → Except GoError AwsCredentials
  mergeCommandCreds : AwsCredentials → AwsCredentials
  decodePassword : String → String → String
  samlFetch : Except GoError (Option String)
  webFetchToken : Except GoError String

/-- Go zero value of `config.AwsCredentials` (`new(config.AwsCredentials)`). -/
def emptyCreds : AwsCredentials := ⟨"", ""⟩

/-- The credentials handed to the SAML/web builders by `Factory.Get`: the
resolver's result (an error degrades to empty credentials, non-fatally)
merged with the command-line credentials. -/
def credsFor (env : FactoryEnv) (url : String) : AwsCredentials :=
  env.mergeCommandCreds
    (match env.resolveCreds url with
     | .ok c => c
     | .error _ => emptyCreds)

/-- `Factory.samlClient`.  `optsProfile` is `opts.Profile` on entry (the
source clears it before building sessions; it is only read for the first
cache file name).  In the jump-role case the initial `SamlAssertion()`
fetch failure is fatal; otherwise its error is discarded. -/
def factorySamlClient (env : FactoryEnv) (cfg : AwsConfig) (creds : AwsCredentials)
    (optsProfile : String) : Except GoError AwsClientM :=
  let samlCfg : SamlRoleClientCfgM :=
    { auth :=
        { Username := cfg.SamlUsername
          Password := env.decodePassword cfg.SamlUrl creds.SamlPassword
          MfaTokenCode := cfg.MfaCode
          MfaType := cfg.MfaType
          IdentityProviderName := cfg.SamlProvider
          FederatedUsername := cfg.FederatedUsername }
      Cache :=
        if env.enableCache then some (cacheFileName ".aws_saml_role" optsProfile cfg.RoleArn)
        else none
      Duration := cfg.RoleCredentialDuration
      RoleArn := cfg.RoleArn }
  if 0 < cfg.JumpRoleArn.length then
    let samlCfg2 :=
      { samlCfg with
          RoleArn := cfg.JumpRoleArn
          Cache :=
            if env.enableCache then some (cacheFileName ".aws_saml_role" "" cfg.JumpRoleArn)
            else samlCfg.Cache }
    let roleCache :=
      if env.enableCache then
        some (cacheFileName ".aws_assume_role" cfg.ProfileName cfg.RoleArn)
      else none
    let baseCl := newSamlRoleClient cfg.SamlUrl samlCfg2
    match env.samlFetch with
    | .error e => .error e
    | .ok saml =>
      let baseCl2 := { baseCl with heldAssertion := saml }
      .ok (.assumeRole
        { RoleArn := cfg.RoleArn
          RoleSessionName := cfg.RoleSessionName
          ExternalId := cfg.ExternalId
          Duration := AssumeRoleDurationDefault
          SerialNumber := ""
          TokenCode := ""
          cache := roleCache
          ident := .samlIdent baseCl2
          sesCreds := .samlProvider baseCl2 })
  else
    let cl := newSamlRoleClient cfg.SamlUrl samlCfg
    let saml :=
      match env.samlFetch with
      | .ok s => s
      | .error _ => none
    .ok (.saml { cl with heldAssertion := saml })

/-- `Factory.webClient`.  In the jump-role case the initial `FetchToken`
failure is fatal; without a jump role no initial fetch is performed. -/
def factoryWebClient (env : FactoryEnv) (cfg : AwsConfig) (creds : AwsCredentials)
    (optsProfile : String) : Except GoError AwsClientM :=
  let webCfg : WebRoleClientM :=
    { url := cfg.WebIdentityUrl
      RoleArn := cfg.RoleArn
      Duration := cfg.RoleCredentialDuration
      MfaType := cfg.MfaType
      MfaTokenCode := cfg.MfaCode
      Username := cfg.WebIdentityUsername
      Password := env.decodePassword cfg.WebIdentityUrl creds.WebIdentityPassword
      FederatedUsername := cfg.FederatedUsername
      ClientId := cfg.WebIdentityClientId
      RedirectUri := cfg.WebIdentityRedirectUri
      IdentityProviderName := cfg.WebIdentityProvider
      WebIdentityTokenFile := cfg.WebIdentityTokenFile
      cache :=
        if env.enableCache then some (cacheFileName ".aws_web_role" optsProfile cfg.RoleArn)
        else none
      heldToken := none }
  if 0 < cfg.JumpRoleArn.length then
    let webCfg2 :=
      { webCfg with
          RoleArn := cfg.JumpRoleArn
          cache :=
            if env.enableCache then some (cacheFileName ".aws_web_role" "" cfg.JumpRoleArn)
            else webCfg.cache }
    let roleCache :=
      if env.enableCache then
        some (cacheFileName ".aws_assume_role" cfg.ProfileName cfg.RoleArn)
      else none
    match env.webFetchToken with
    | .error e => .error e
    | .ok tok =>
      let baseCl := { webCfg2 with heldToken := some tok }
      .ok (.assumeRole
        { RoleArn := cfg.RoleArn
          RoleSessionName := cfg.RoleSessionName
          ExternalId := cfg.ExternalId
          Duration := AssumeRoleDurationDefault
          SerialNumber := ""
          TokenCode := ""
          cache := roleCache
          ident := .webIdent baseCl
          sesCreds := .webProvider baseCl })
  else .ok (.web webCfg)

/-- `Factory.sessionClient`. -/
def factorySessionClient (env : FactoryEnv) (cfg : AwsConfig)
    (optsProfile : String) : SessionTokenClientM :=
  { Duration := cfg.SessionTokenDuration
    SerialNumber := cfg.MfaSerial
    TokenCode := cfg.MfaCode
    cache :=
      if env.enableCache then some (cacheFileName ".aws_session_token" optsProfile "")
      else none }

/-- `Factory.roleClient`.  The assume-role cache name is computed before
the source-profile override of `opts.Profile`; the session-token client
(when built) sees the override.  At or below the default duration the MFA
serial moves to the session-token stage, whose credentials and identity
the assume-role client inherits. -/
def factoryRoleClient (env : FactoryEnv) (cfg : AwsConfig)
    (optsProfile : String) : AssumeRoleClientM :=
  let roleCfg : AssumeRoleClientM :=
    { RoleArn := cfg.RoleArn
      RoleSessionName := cfg.RoleSessionName
      ExternalId := cfg.ExternalId
      Duration := cfg.RoleCredentialDuration
      SerialNumber := cfg.MfaSerial
      TokenCode := cfg.MfaCode
      cache :=
        if env.enableCache then some (cacheFileName ".aws_assume_role" optsProfile cfg.RoleArn)
        else none
      ident := .selfIdent
      sesCreds := .chainDefault }
  let optsProfile2 := if 0 < cfg.SrcProfile.length then cfg.SrcProfile else optsProfile
  if cfg.RoleCredentialDuration ≤ AssumeRoleDurationDefault then
    let sc := factorySessionClient env cfg optsProfile2
    { roleCfg with SerialNumber := "", ident := .sessionIdent sc, sesCreds := .sessionCreds sc }
  else roleCfg

/-- The profile-name rewrite at the top of `Factory.Get`: a profile name
that is itself an ARN becomes the role ARN and is cleared. -/
def resolveProfileArn (cfg : AwsConfig) : AwsConfig :=
  if arnIsARN cfg.ProfileName then
    { cfg with RoleArn := cfg.ProfileName, ProfileName := "" }
  else cfg

/-- `Factory.Get`: nil check, validation, profile-ARN rewrite, then the
first-match dispatch on `SamlUrl`, `WebIdentityUrl`, `RoleArn`, with the
session-token client as the fallback. -/
def factoryGet (env : FactoryEnv) (cfg? : Option AwsConfig) : Except GoError AwsClientM :=
  match cfg? with
  | none => .error (.simple "invalid configuration")
  | some cfg0 =>
    match env.validate cfg0 with
    | some e => .error e
    | none =>
      let cfg := resolveProfileArn cfg0
      if 0 < cfg.SamlUrl.length then
        factorySamlClient env cfg (credsFor env cfg.SamlUrl) cfg.ProfileName
      else if 0 < cfg.WebIdentityUrl.length then
        factoryWebClient env cfg (credsFor env cfg.WebIdentityUrl) cfg.ProfileName
      else if 0 < cfg.RoleArn.length then
        .ok (.assumeRole (factoryRoleClient env cfg cfg.ProfileName))
      else .ok (.sessionToken (factorySessionClient env cfg cfg.ProfileName))

/-- A concrete factory environment used to evaluate the theorems on
specific configurations: validation passes, the resolver and the merge are
benign, the initial SAML fetch succeeds. -/
def envOk : FactoryEnv :=
  { enableCache := true
    validate := fun _ => none
    resolveCreds := fun _ => .ok ⟨"enc-saml-pw", "enc-web-pw"⟩
    mergeCommandCreds := fun c => c
    decodePassword := fun _ p => p
    samlFetch := .ok (some "c2FtbC1hc3NlcnRpb24=")
    webFetchToken := .ok "oidc-token" }

/-- `envOk` with a failing initial SAML assertion fetch. -/
def envSamlErr : FactoryEnv :=
  { envOk with samlFetch := .error (.simple "SAML request error connection refused") }

/-- The all-empty configuration the concrete test configurations start
from. -/
def cfgBlank : AwsConfig :=
  { ProfileName := "", RoleArn := "", SamlUrl := "", WebIdentityUrl := "", JumpRoleArn := ""
    SrcProfile := "", MfaSerial := "", MfaCode := "", MfaType := "", SamlUsername := ""
    SamlProvider := "", FederatedUsername := "", WebIdentityUsername := ""
    WebIdentityClientId := "", WebIdentityRedirectUri := "", WebIdentityProvider := ""
    WebIdentityTokenFile := "", RoleSessionName := "", ExternalId := "", Region := ""
    SessionTokenDuration := 0, RoleCredentialDuration := 0 }

/-- SAML configuration without a jump role. -/
def cfgSamlOnly : AwsConfig :=
  { cfgBlank with
      SamlUrl := "https://idp.example.com/auth"
      RoleArn := "arn:aws:iam::222222222222:role/final"
      RoleCredentialDuration := 43200 }

/-- SAML configuration with a jump role. -/
def cfgSamlJump : AwsConfig :=
  { cfgSamlOnly with
      ProfileName := "dev"
      JumpRoleArn := "arn:aws:iam::111111111111:role/jump" }

/-- Plain assume-role configuration at the default duration ceiling. -/
def cfgRoleLow : AwsConfig :=
  { cfgBlank with
      ProfileName := "dev"
      RoleArn := "arn:aws:iam::333333333333:role/worker"
      MfaSerial := "arn:aws:iam::333333333333:mfa/user"
      RoleCredentialDuration := 3600
      SessionTokenDuration := 43200 }

/-- A response document with two `SAMLResponse` inputs. -/
def docTwoSaml : List InputElem :=
  [⟨some "username", some "alice"⟩,
   ⟨some "SAMLResponse", some "assertion-one"⟩,
   ⟨some "SAMLResponse", some "assertion-two"⟩]

/-- A response document with no `SAMLResponse` input. -/
def docNoSaml : List InputElem :=
  [⟨some "username", some "alice"⟩, ⟨none, some "stray"⟩]

/-- A freshly constructed client: nothing gathered, no assertion held. -/
def stBlank : BaseClientM := ⟨"", "", "", "", none⟩

/-- A client holding a non-empty assertion. -/
def stAuthed : BaseClientM := ⟨"alice", "hunter2", "", "auto", some "held-assertion"⟩

/-- A client with username and password set and non-code MFA. -/
def stFull : BaseClientM := ⟨"alice", "hunter2", "", "auto", none⟩

/-- A client still missing its password. -/
def stNoPw : BaseClientM := ⟨"alice", "", "", "auto", none⟩

/-- Input providers that answer successfully. -/
def gatherEnvOk : GatherEnv :=
  { credProvider := fun _ _ => .ok ("alice", "hunter2")
    mfaProvider := some (fun _ => .ok "123456") }

/-- Input providers whose credential prompt fails. -/
def gatherEnvFail : GatherEnv :=
  { credProvider := fun _ _ => .error (.simple "input stream closed")
    mfaProvider := some (fun _ => .ok "123456") }

/-- A concrete stand-in for `url.Parse(u).Query()`. -/
def queryOracle : String → List (String × String) :=
  fun _ => [("code", "authz-code"), ("state", "opaque-state")]

theorem handleSamlResponse_eq (st : BaseClientM) (inputs : List InputElem) :
    handleSamlResponse st inputs =
      match (inputs.filter isSamlInput).getLast? with
      | some s => { st with saml := some (inputValue s) }
      | none => st := by
  induction inputs generalizing st with
  | nil => rfl
  | cons i rest ih =>
    by_cases hi : isSamlInput i
    · simp only [handleSamlResponse, List.foldl_cons, hi, if_true,
        List.filter_cons_of_pos hi]
      rw [show List.foldl
            (fun acc s => if isSamlInput s then { acc with saml := some (inputValue s) } else acc)
            { st with saml := some (inputValue i) } rest
          = handleSamlResponse { st with saml := some (inputValue i) } rest from rfl]
      rw [ih]
      cases h : (rest.filter isSamlInput).getLast? with
      | some s => rw [List.getLast?_cons, h]; rfl
      | none => rw [List.getLast?_cons, h]; rfl
    · simp only [handleSamlResponse, List.foldl_cons, hi, if_false,
        List.filter_cons_of_neg hi]
      exact ih st

theorem handleSamlResponse_saml_of_match (st : BaseClientM) (inputs : List InputElem)
    (h : inputs.filter isSamlInput ≠ []) :
    (handleSamlResponse st inputs).saml = lastSamlValue inputs := by
  rw [handleSamlResponse_eq]
  cases h2 : (inputs.filter isSamlInput).getLast? with
  | some s => simp [lastSamlValue, h2]
  | none => exact absurd (List.getLast?_eq_none_iff.mp h2) h

/-- C1 (amended): for every HTML response body containing one or more
`<input>` elements named `SAMLResponse`, `handleSamlResponse` sets the
client's held assertion to the `value` attribute of the LAST such element
(each subsequent match replaces the previous one), and `SamlAssertion()`
then returns exactly that value. -/
theorem samlResponse_keeps_last (st : BaseClientM) (inputs : List InputElem)
    (expiresAt : String → Except GoError Nat) (now : Nat)
    (h : inputs.filter isSamlInput ≠ []) :
    (handleSamlResponse st inputs).saml = lastSamlValue inputs
    ∧ (st.saml = none →
        samlAssertionM expiresAt now (.ok inputs) st =
          .ok (lastSamlValue inputs, handleSamlResponse st inputs)) := by
  refine ⟨handleSamlResponse_saml_of_match st inputs h, fun hnone => ?_⟩
  unfold samlAssertionM samlRequest
  rw [hnone]
  simp [samlFetchStep, handleSamlResponse_saml_of_match st inputs h]

theorem samlResponse_keeps_last_witness :
    (handleSamlResponse stBlank docTwoSaml).saml = lastSamlValue docTwoSaml
    ∧ (stBlank.saml = none →
        samlAssertionM (fun _ => .ok 0) 0 (.ok docTwoSaml) stBlank =
          .ok (lastSamlValue docTwoSaml, handleSamlResponse stBlank docTwoSaml)) :=
  samlResponse_keeps_last stBlank docTwoSaml (fun _ => .ok 0) 0 (by decide)

/-- C1 counterexample: on a body with two `SAMLResponse` inputs, the first
match's value is `assertion-one` but the held assertion after
`handleSamlResponse` is the second value, `assertion-two` — later matches
do replace earlier ones, refuting the claim as stated. -/
theorem samlResponse_not_first :
    firstSamlValue docTwoSaml = some "assertion-one"
    ∧ (handleSamlResponse stBlank docTwoSaml).saml = some "assertion-two" := by
  exact ⟨by decide, by decide⟩

/-- C5: an HTML response body with no `<input>` named `SAMLResponse`
leaves the client state unchanged and produces no error; in particular a
client with no held assertion ends up, error-free, with an empty (`none`)
assertion. -/
theorem samlResponse_noMatch (st : BaseClientM) (inputs : List InputElem)
    (expiresAt : String → Except GoError Nat) (now : Nat)
    (h : inputs.filter isSamlInput = []) :
    handleSamlResponse st inputs = st
    ∧ (st.saml = none →
        samlAssertionM expiresAt now (.ok inputs) st = .ok (none, st)) := by
  have hst : handleSamlResponse st inputs = st := by
    rw [handleSamlResponse_eq, h]
    rfl
  refine ⟨hst, fun hnone => ?_⟩
  unfold samlAssertionM samlRequest
  rw [hnone]
  simp [samlFetchStep, hst, hnone]

theorem samlResponse_noMatch_witness :
    handleSamlResponse stBlank docNoSaml = stBlank
    ∧ (stBlank.saml = none →
        samlAssertionM (fun _ => .ok 0) 0 (.ok docNoSaml) stBlank = .ok (none, stBlank)) :=
  samlResponse_noMatch stBlank docNoSaml (fun _ => .ok 0) 0 (by decide)

/-- C6: with a held non-empty assertion whose derived expiry is strictly
in the future, `samlRequest` ends in the no-network `cached` outcome with
the state unchanged, so two successive `SamlAssertion()` calls (whatever
the network would have answered either time) perform zero requests and
both return the identical held assertion. -/
theorem samlRequest_cached_idempotent (st : BaseClientM) (s : String)
    (expiresAt : String → Except GoError Nat) (t now : Nat)
    (net net2 : Except GoError (List InputElem))
    (hs : st.saml = some s) (hne : 0 < s.length)
    (he : expiresAt s = .ok t) (hfut : now < t) :
    samlRequest expiresAt now net st = .cached st
    ∧ samlAssertionM expiresAt now net st = .ok (some s, st)
    ∧ samlAssertionM expiresAt now net2 st = .ok (some s, st) := by
  have h1 : ∀ oracle : Except GoError (List InputElem),
      samlRequest expiresAt now oracle st = .cached st := by
    intro oracle
    unfold samlRequest
    rw [hs]
    simp [hne, he, hfut]
  refine ⟨h1 net, ?_, ?_⟩ <;> simp [samlAssertionM, h1, hs]

theorem samlRequest_cached_idempotent_witness :
    samlRequest (fun _ => .ok 100) 50 (.ok docNoSaml) stAuthed = .cached stAuthed
    ∧ samlAssertionM (fun _ => .ok 100) 50 (.ok docNoSaml) stAuthed
        = .ok (some "held-assertion", stAuthed)
    ∧ samlAssertionM (fun _ => .ok 100) 50 (.error (.simple "network unreachable")) stAuthed
        = .ok (some "held-assertion", stAuthed) :=
  samlRequest_cached_idempotent stAuthed "held-assertion" (fun _ => .ok 100) 100 50
    (.ok docNoSaml) (.error (.simple "network unreachable")) rfl (by decide) rfl (by decide)

theorem gatherMfaStep_frame (env : GatherEnv) (st : BaseClientM) (n : Nat) :
    (gatherMfaStep env st n).credCalls = n
    ∧ (gatherMfaStep env st n).state.Username = st.Username
    ∧ (gatherMfaStep env st n).state.Password = st.Password := by
  unfold gatherMfaStep
  split
  · rename_i h
    obtain ⟨f, hf⟩ := Option.isSome_iff_exists.mp h.2.2
    simp only [hf]
    cases f () <;> exact ⟨rfl, rfl, rfl⟩
  · exact ⟨rfl, rfl, rfl⟩

/-- C9: `gatherCredentials` is idempotent: with username and password both
set and either a non-`code` MFA type or an already-set MFA code, neither
provider is invoked, no field changes and no error is returned; with
username or password missing, the credential provider is invoked exactly
once and both returned values are stored, while a provider failure is
returned verbatim with the state untouched. -/
theorem gatherCredentials_idempotent (env : GatherEnv) (st : BaseClientM) :
    (1 ≤ st.Username.length → 1 ≤ st.Password.length →
      (st.MfaType ≠ MfaTypeCode ∨ 1 ≤ st.MfaTokenCode.length) →
      gatherCredentials env st = ⟨none, st, 0, 0⟩)
    ∧ ((st.Username.length < 1 ∨ st.Password.length < 1) →
        (∀ u p, env.credProvider st.Username st.Password = .ok (u, p) →
          (gatherCredentials env st).credCalls = 1
          ∧ (gatherCredentials env st).state.Username = u
          ∧ (gatherCredentials env st).state.Password = p)
        ∧ ∀ e, env.credProvider st.Username st.Password = .error e →
            gatherCredentials env st = ⟨some e, st, 1, 0⟩) := by
  constructor
  · intro hu hp hm
    have hcond : ¬ (st.Username.length < 1 ∨ st.Password.length < 1) := by omega
    unfold gatherCredentials
    rw [if_neg hcond]
    unfold gatherMfaStep
    have hmfa : ¬ (st.MfaType = MfaTypeCode ∧ st.MfaTokenCode.length < 1
        ∧ env.mfaProvider.isSome = true) := by
      rcases hm with h | h
      · exact fun hc => h hc.1
      · exact fun hc => by omega
    rw [if_neg hmfa]
  · intro hmiss
    constructor
    · intro u p hok
      unfold gatherCredentials
      rw [if_pos hmiss, hok]
      exact gatherMfaStep_frame env _ 1
    · intro e herr
      unfold gatherCredentials
      rw [if_pos hmiss, herr]

theorem gatherCredentials_idempotent_witness :
    gatherCredentials gatherEnvOk stFull = ⟨none, stFull, 0, 0⟩
    ∧ gatherCredentials gatherEnvFail stNoPw
        = ⟨some (.simple "input stream closed"), stNoPw, 1, 0⟩ :=
  ⟨(gatherCredentials_idempotent gatherEnvOk stFull).1 (by decide) (by decide)
      (Or.inl (by decide)),
   ((gatherCredentials_idempotent gatherEnvFail stNoPw).2 (Or.inr (by decide))).2
      (.simple "input stream closed") rfl⟩

/-- C3: with `followRedirect=true`, a transport failure carried as a
`url.Error` whose target URL has the configured redirect URI as a prefix
makes `oauthAuthorize` return that URL's query parameters with no error;
a `url.Error` without that prefix, or any other transport error, is
returned as the failure. -/
theorem oauthAuthorize_redirect_error (redirectUri : String)
    (query : String → List (String × String)) (dnf : HttpDoResult) (u msg : String) :
    (goHasPrefix redirectUri u = true →
      oauthAuthorize redirectUri query (.urlErr u msg) dnf true = .ok (query u))
    ∧ (goHasPrefix redirectUri u = false →
      oauthAuthorize redirectUri query (.urlErr u msg) dnf true
        = .error (.urlError u msg))
    ∧ (∀ e, oauthAuthorize redirectUri query (.otherErr e) dnf true = .error e) := by
  refine ⟨fun h => ?_, fun h => ?_, fun e => ?_⟩
  · simp [oauthAuthorize, h]
  · simp [oauthAuthorize, h]
  · simp [oauthAuthorize]

theorem oauthAuthorize_redirect_error_witness :
    oauthAuthorize "http://localhost:8080/callback" queryOracle
        (.urlErr "http://localhost:8080/callback?code=authz-code" "connection refused")
        (.response 302 none) true
      = .ok (queryOracle "http://localhost:8080/callback?code=authz-code")
    ∧ oauthAuthorize "http://localhost:8080/callback" queryOracle
        (.urlErr "https://other.example.com/cb" "connection refused")
        (.response 302 none) true
      = .error (.urlError "https://other.example.com/cb" "connection refused") :=
  ⟨(oauthAuthorize_redirect_error "http://localhost:8080/callback" queryOracle
      (.response 302 none) "http://localhost:8080/callback?code=authz-code"
      "connection refused").1 (by decide),
   (oauthAuthorize_redirect_error "http://localhost:8080/callback" queryOracle
      (.response 302 none) "https://other.example.com/cb"
      "connection refused").2.1 (by decide)⟩

theorem splitFirst_append (sep : Char) (l1 l2 : List Char) (h : sep ∉ l1) :
    splitFirst sep (l1 ++ sep :: l2) = some (l1, l2) := by
  induction l1 with
  | nil => simp [splitFirst]
  | cons c cs ih =>
    have hc : ¬ c = sep := fun hcs => h (hcs ▸ List.mem_cons_self c cs)
    have hcs : sep ∉ cs := fun hm => h (List.mem_cons_of_mem c hm)
    simp [splitFirst, hc, ih hcs]

theorem isPrefixOf_append_self (l t : List Char) : l.isPrefixOf (l ++ t) = true := by
  induction l with
  | nil => simp [List.isPrefixOf]
  | cons c cs ih => simp [List.isPrefixOf, ih]

theorem countChar_append (s t : String) (c : Char) :
    countChar (s ++ t) c = countChar s c + countChar t c := by
  simp [countChar, String.data_append, List.filter_append]

theorem string_mk_data (s : String) : String.mk s.data = s := rfl

theorem splitNChars_succ (sep : Char) (n : Nat) (l1 l2 : List Char) (h : sep ∉ l1) :
    splitNChars sep (n + 1) (l1 ++ sep :: l2) = l1 :: splitNChars sep n l2 := by
  simp [splitNChars, splitFirst_append sep l1 l2 h]

theorem arnParse_structured (pt sv rg acct res : String)
    (hpt : ':' ∉ pt.data) (hsv : ':' ∉ sv.data) (hrg : ':' ∉ rg.data)
    (hacct : ':' ∉ acct.data) :
    arnIsARN ("arn:" ++ pt ++ ":" ++ sv ++ ":" ++ rg ++ ":" ++ acct ++ ":" ++ res) = true
    ∧ arnParse ("arn:" ++ pt ++ ":" ++ sv ++ ":" ++ rg ++ ":" ++ acct ++ ":" ++ res)
        = some ⟨pt, sv, rg, acct, res⟩ := by
  have hdata : ("arn:" ++ pt ++ ":" ++ sv ++ ":" ++ rg ++ ":" ++ acct ++ ":" ++ res).data
      = ['a', 'r', 'n'] ++ ':' ::
          (pt.data ++ ':' :: (sv.data ++ ':' :: (rg.data ++ ':' ::
            (acct.data ++ ':' :: res.data)))) := by
    simp [String.data_append]
  have hpre : goHasPrefix "arn:"
      ("arn:" ++ pt ++ ":" ++ sv ++ ":" ++ rg ++ ":" ++ acct ++ ":" ++ res) = true := by
    unfold goHasPrefix
    rw [hdata]
    exact isPrefixOf_append_self _ _
  have hcount : 5 ≤ countChar ("arn:" ++ pt ++ ":" ++ sv ++ ":" ++ rg ++ ":" ++ acct
      ++ ":" ++ res) ':' := by
    simp only [countChar_append]
    have h1 : countChar "arn:" ':' = 1 := by decide
    have h2 : countChar ":" ':' = 1 := by decide
    omega
  have hsplit : splitNChars ':' 5
      (("arn:" ++ pt ++ ":" ++ sv ++ ":" ++ rg ++ ":" ++ acct ++ ":" ++ res).data)
      = [['a', 'r', 'n'], pt.data, sv.data, rg.data, acct.data, res.data] := by
    rw [hdata]
    rw [show (5 : Nat) = 4 + 1 from rfl,
      splitNChars_succ ':' 4 ['a', 'r', 'n'] _ (by decide)]
    rw [show (4 : Nat) = 3 + 1 from rfl, splitNChars_succ ':' 3 pt.data _ hpt]
    rw [show (3 : Nat) = 2 + 1 from rfl, splitNChars_succ ':' 2 sv.data _ hsv]
    rw [show (2 : Nat) = 1 + 1 from rfl, splitNChars_succ ':' 1 rg.data _ hrg]
    rw [show (1 : Nat) = 0 + 1 from rfl, splitNChars_succ ':' 0 acct.data _ hacct]
    rfl
  refine ⟨?_, ?_⟩
  · unfold arnIsARN
    rw [hpre]
    simp [hcount]
  · unfold arnParse
    rw [hpre, if_pos rfl, hsplit]

/-- C8: the key part of a cache file name is `{accountId}-{last
slash-separated segment of the ARN resource}` when the profile argument is
empty and the role is a valid ARN (shown both in general through the
parser and for every explicitly structured ARN), and is the profile string
verbatim whenever the profile argument is non-empty. -/
theorem cacheFileName_key (pfx profile pt sv rg acct res : String)
    (hpt : ':' ∉ pt.data) (hsv : ':' ∉ sv.data) (hrg : ':' ∉ rg.data)
    (hacct : ':' ∉ acct.data) :
    (∀ role, arnIsARN role = true →
      cacheFileName pfx "" role
        = pfx ++ "_" ++ ((arnParseD role).accountID ++ "-"
            ++ lastSlashSegment (arnParseD role).resource))
    ∧ cacheFileName pfx "" ("arn:" ++ pt ++ ":" ++ sv ++ ":" ++ rg ++ ":" ++ acct
        ++ ":" ++ res)
        = pfx ++ "_" ++ (acct ++ "-" ++ lastSlashSegment res)
    ∧ (∀ role, 1 ≤ profile.length →
        cacheFileName pfx profile role = pfx ++ "_" ++ profile) := by
  have hgen : ∀ role, arnIsARN role = true →
      cacheFileName pfx "" role
        = pfx ++ "_" ++ ((arnParseD role).accountID ++ "-"
            ++ lastSlashSegment (arnParseD role).resource) := by
    intro role hrole
    unfold cacheFileName cacheKey
    rw [if_pos]
    simp [hrole]
  refine ⟨hgen, ?_, ?_⟩
  · obtain ⟨hisarn, hparse⟩ := arnParse_structured pt sv rg acct res hpt hsv hrg hacct
    rw [hgen _ hisarn]
    unfold arnParseD
    rw [hparse]
    rfl
  · intro role hp
    unfold cacheFileName cacheKey
    rw [if_neg]
    simp
    omega

theorem cacheFileName_key_witness :
    (∀ role, arnIsARN role = true →
      cacheFileName ".aws_assume_role" "" role
        = ".aws_assume_role" ++ "_" ++ ((arnParseD role).accountID ++ "-"
            ++ lastSlashSegment (arnParseD role).resource))
    ∧ cacheFileName ".aws_assume_role" ""
        ("arn:" ++ "aws" ++ ":" ++ "iam" ++ ":" ++ "" ++ ":" ++ "012345678901"
          ++ ":" ++ "role/Admin")
        = ".aws_assume_role" ++ "_" ++ ("012345678901" ++ "-" ++ lastSlashSegment "role/Admin")
    ∧ (∀ role, 1 ≤ "dev".length →
        cacheFileName ".aws_assume_role" "dev" role = ".aws_assume_role" ++ "_" ++ "dev") :=
  cacheFileName_key ".aws_assume_role" "dev" "aws" "iam" "" "012345678901" "role/Admin"
    (by decide) (by decide) (by decide) (by decide)

theorem resolveProfileArn_fields (cfg : AwsConfig) :
    (resolveProfileArn cfg).SamlUrl = cfg.SamlUrl
    ∧ (resolveProfileArn cfg).WebIdentityUrl = cfg.WebIdentityUrl
    ∧ (resolveProfileArn cfg).JumpRoleArn = cfg.JumpRoleArn
    ∧ (resolveProfileArn cfg).RoleCredentialDuration = cfg.RoleCredentialDuration := by
  unfold resolveProfileArn
  split <;> exact ⟨rfl, rfl, rfl, rfl⟩

theorem factoryGet_eq_saml (env : FactoryEnv) (cfg0 : AwsConfig)
    (hv : env.validate cfg0 = none)
    (hs : 0 < (resolveProfileArn cfg0).SamlUrl.length) :
    factoryGet env (some cfg0)
      = factorySamlClient env (resolveProfileArn cfg0)
          (credsFor env (resolveProfileArn cfg0).SamlUrl)
          (resolveProfileArn cfg0).ProfileName := by
  simp only [factoryGet, hv]
  rw [if_pos hs]

theorem factoryGet_eq_web (env : FactoryEnv) (cfg0 : AwsConfig)
    (hv : env.validate cfg0 = none)
    (hs : (resolveProfileArn cfg0).SamlUrl.length = 0)
    (hw : 0 < (resolveProfileArn cfg0).WebIdentityUrl.length) :
    factoryGet env (some cfg0)
      = factoryWebClient env (resolveProfileArn cfg0)
          (credsFor env (resolveProfileArn cfg0).WebIdentityUrl)
          (resolveProfileArn cfg0).ProfileName := by
  simp only [factoryGet, hv, hs]
  rw [if_pos hw]
  simp

theorem factoryGet_eq_role (env : FactoryEnv) (cfg0 : AwsConfig)
    (hv : env.validate cfg0 = none)
    (hs : (resolveProfileArn cfg0).SamlUrl.length = 0)
    (hw : (resolveProfileArn cfg0).WebIdentityUrl.length = 0)
    (hr : 0 < (resolveProfileArn cfg0).RoleArn.length) :
    factoryGet env (some cfg0)
      = .ok (.assumeRole
          (factoryRoleClient env (resolveProfileArn cfg0)
            (resolveProfileArn cfg0).ProfileName)) := by
  simp only [factoryGet, hv, hs, hw]
  rw [if_pos hr]
  simp

theorem factoryGet_eq_session (env : FactoryEnv) (cfg0 : AwsConfig)
    (hv : env.validate cfg0 = none)
    (hs : (resolveProfileArn cfg0).SamlUrl.length = 0)
    (hw : (resolveProfileArn cfg0).WebIdentityUrl.length = 0)
    (hr : (resolveProfileArn cfg0).RoleArn.length = 0) :
    factoryGet env (some cfg0)
      = .ok (.sessionToken
          (factorySessionClient env (resolveProfileArn cfg0)
            (resolveProfileArn cfg0).ProfileName)) := by
  simp only [factoryGet, hv, hs, hw, hr]
  simp

/-- C4: `Factory.Get` on a valid configuration applies a single-pass,
first-match decision procedure: an ARN-shaped profile name first becomes
the role ARN with the profile name cleared; then the SAML builder runs
when `SamlUrl` is non-empty, else the Web/OIDC builder when
`WebIdentityUrl` is non-empty, else the Assume-Role client when `RoleArn`
is non-empty, else the Session-Token client. -/
theorem factoryGet_dispatch (env : FactoryEnv) (cfg0 : AwsConfig)
    (hv : env.validate cfg0 = none) :
    (arnIsARN cfg0.ProfileName = true →
      (resolveProfileArn cfg0).RoleArn = cfg0.ProfileName
      ∧ (resolveProfileArn cfg0).ProfileName = "")
    ∧ (0 < (resolveProfileArn cfg0).SamlUrl.length →
        factoryGet env (some cfg0)
          = factorySamlClient env (resolveProfileArn cfg0)
              (credsFor env (resolveProfileArn cfg0).SamlUrl)
              (resolveProfileArn cfg0).ProfileName)
    ∧ ((resolveProfileArn cfg0).SamlUrl.length = 0 →
        0 < (resolveProfileArn cfg0).WebIdentityUrl.length →
        factoryGet env (some cfg0)
          = factoryWebClient env (resolveProfileArn cfg0)
              (credsFor env (resolveProfileArn cfg0).WebIdentityUrl)
              (resolveProfileArn cfg0).ProfileName)
    ∧ ((resolveProfileArn cfg0).SamlUrl.length = 0 →
        (resolveProfileArn cfg0).WebIdentityUrl.length = 0 →
        0 < (resolveProfileArn cfg0).RoleArn.length →
        factoryGet env (some cfg0)
          = .ok (.assumeRole
              (factoryRoleClient env (resolveProfileArn cfg0)
                (resolveProfileArn cfg0).ProfileName)))
    ∧ ((resolveProfileArn cfg0).SamlUrl.length = 0 →
        (resolveProfileArn cfg0).WebIdentityUrl.length = 0 →
        (resolveProfileArn cfg0).RoleArn.length = 0 →
        factoryGet env (some cfg0)
          = .ok (.sessionToken
              (factorySessionClient env (resolveProfileArn cfg0)
                (resolveProfileArn cfg0).ProfileName))) := by
  refine ⟨fun ha => ?_, factoryGet_eq_saml env cfg0 hv,
    factoryGet_eq_web env cfg0 hv, factoryGet_eq_role env cfg0 hv,
    factoryGet_eq_session env cfg0 hv⟩
  unfold resolveProfileArn
  rw [if_pos ha]
  exact ⟨rfl, rfl⟩

theorem factoryGet_dispatch_witness :
    factoryGet envOk (some cfgSamlOnly)
      = factorySamlClient envOk (resolveProfileArn cfgSamlOnly)
          (credsFor envOk (resolveProfileArn cfgSamlOnly).SamlUrl)
          (resolveProfileArn cfgSamlOnly).ProfileName
    ∧ factoryGet envOk (some cfgRoleLow)
      = .ok (.assumeRole
          (factoryRoleClient envOk (resolveProfileArn cfgRoleLow)
            (resolveProfileArn cfgRoleLow).ProfileName))
    ∧ factoryGet envOk (some cfgBlank)
      = .ok (.sessionToken
          (factorySessionClient envOk (resolveProfileArn cfgBlank)
            (resolveProfileArn cfgBlank).ProfileName)) :=
  ⟨(factoryGet_dispatch envOk cfgSamlOnly rfl).2.1 (by decide),
   (factoryGet_dispatch envOk cfgRoleLow rfl).2.2.2.1 (by decide) (by decide) (by decide),
   (factoryGet_dispatch envOk cfgBlank rfl).2.2.2.2 (by decide) (by decide) (by decide)⟩

/-- C2: with both `SamlUrl` and `JumpRoleArn` set (and the initial
assertion fetch succeeding), `Factory.Get` returns an Assume-Role client
whose identity back-reference and session credentials delegate to an
internally built SAML-role client targeting the jump role ARN, and whose
duration is the chained-session ceiling `AssumeRoleDurationDefault`
whatever duration the configuration requested. -/
theorem factoryGet_samlJump (env : FactoryEnv) (cfg0 : AwsConfig) (saml : Option String)
    (hv : env.validate cfg0 = none)
    (hs : 0 < cfg0.SamlUrl.length)
    (hj : 0 < cfg0.JumpRoleArn.length)
    (hf : env.samlFetch = .ok saml) :
    ∃ c base, factoryGet env (some cfg0) = .ok (.assumeRole c)
      ∧ c.ident = .samlIdent base
      ∧ c.sesCreds = .samlProvider base
      ∧ base.providerRoleArn = cfg0.JumpRoleArn
      ∧ base.heldAssertion = saml
      ∧ c.Duration = AssumeRoleDurationDefault
      ∧ c.RoleArn = (resolveProfileArn cfg0).RoleArn := by
  obtain ⟨hsaml, hweb, hjump, hdur⟩ := resolveProfileArn_fields cfg0
  have hs2 : 0 < (resolveProfileArn cfg0).SamlUrl.length := by rw [hsaml]; exact hs
  have hj2 : 0 < (resolveProfileArn cfg0).JumpRoleArn.length := by rw [hjump]; exact hj
  rw [factoryGet_eq_saml env cfg0 hv hs2]
  simp only [factorySamlClient]
  rw [if_pos hj2, hf]
  refine ⟨_, _, rfl, rfl, rfl, ?_, rfl, rfl, rfl⟩
  simp [newSamlRoleClient, hjump]

theorem factoryGet_samlJump_witness :
    ∃ c base, factoryGet envOk (some cfgSamlJump) = .ok (.assumeRole c)
      ∧ c.ident = .samlIdent base
      ∧ c.sesCreds = .samlProvider base
      ∧ base.providerRoleArn = cfgSamlJump.JumpRoleArn
      ∧ base.heldAssertion = some "c2FtbC1hc3NlcnRpb24="
      ∧ c.Duration = AssumeRoleDurationDefault
      ∧ c.RoleArn = (resolveProfileArn cfgSamlJump).RoleArn :=
  factoryGet_samlJump envOk cfgSamlJump (some "c2FtbC1hc3NlcnRpb24=") rfl
    (by decide) (by decide) rfl

/-- C7: with no SAML or Web Identity URL, a non-empty role ARN (after the
profile-ARN rewrite) and a role credential duration at or below
`AssumeRoleDurationDefault`, `Factory.Get` returns an Assume-Role client
whose MFA serial number is cleared and whose session credentials and
identity both come from one internally built Session-Token client. -/
theorem factoryGet_roleLowDuration (env : FactoryEnv) (cfg0 : AwsConfig)
    (hv : env.validate cfg0 = none)
    (hs : cfg0.SamlUrl = "") (hw : cfg0.WebIdentityUrl = "")
    (hr : 0 < (resolveProfileArn cfg0).RoleArn.length)
    (hd : cfg0.RoleCredentialDuration ≤ AssumeRoleDurationDefault) :
    ∃ c sc, factoryGet env (some cfg0) = .ok (.assumeRole c)
      ∧ c.SerialNumber = ""
      ∧ c.sesCreds = .sessionCreds sc
      ∧ c.ident = .sessionIdent sc := by
  obtain ⟨hsaml, hweb, hjump, hdur⟩ := resolveProfileArn_fields cfg0
  have hs2 : (resolveProfileArn cfg0).SamlUrl.length = 0 := by rw [hsaml, hs]; rfl
  have hw2 : (resolveProfileArn cfg0).WebIdentityUrl.length = 0 := by rw [hweb, hw]; rfl
  have hd2 : (resolveProfileArn cfg0).RoleCredentialDuration ≤ AssumeRoleDurationDefault := by
    rw [hdur]; exact hd
  rw [factoryGet_eq_role env cfg0 hv hs2 hw2 hr]
  simp only [factoryRoleClient]
  rw [if_pos hd2]
  exact ⟨_, _, rfl, rfl, rfl, rfl⟩

theorem factoryGet_roleLowDuration_witness :
    ∃ c sc, factoryGet envOk (some cfgRoleLow) = .ok (.assumeRole c)
      ∧ c.SerialNumber = ""
      ∧ c.sesCreds = .sessionCreds sc
      ∧ c.ident = .sessionIdent sc :=
  factoryGet_roleLowDuration envOk cfgRoleLow rfl rfl rfl (by decide) (by decide)

/-- C10: with `SamlUrl` set and the initial `SamlAssertion()` fetch
failing, `Factory.Get` without a jump role discards the error and returns
the SAML-role client (with an empty held assertion) and a nil error,
while with a jump role configured the identical fetch failure makes it
return no client and that error. -/
theorem factoryGet_samlFetchError (env : FactoryEnv) (cfg0 : AwsConfig) (e : GoError)
    (hv : env.validate cfg0 = none)
    (hs : 0 < cfg0.SamlUrl.length)
    (hf : env.samlFetch = .error e) :
    (cfg0.JumpRoleArn = "" →
      ∃ cl, factoryGet env (some cfg0) = .ok (.saml cl) ∧ cl.heldAssertion = none)
    ∧ (0 < cfg0.JumpRoleArn.length →
        factoryGet env (some cfg0) = .error e) := by
  obtain ⟨hsaml, hweb, hjump, hdur⟩ := resolveProfileArn_fields cfg0
  have hs2 : 0 < (resolveProfileArn cfg0).SamlUrl.length := by rw [hsaml]; exact hs
  constructor
  · intro hnone
    have hj2 : ¬ 0 < (resolveProfileArn cfg0).JumpRoleArn.length := by
      rw [hjump, hnone]
      simp
    rw [factoryGet_eq_saml env cfg0 hv hs2]
    simp only [factorySamlClient]
    rw [if_neg hj2, hf]
    exact ⟨_, rfl, rfl⟩
  · intro hj
    have hj2 : 0 < (resolveProfileArn cfg0).JumpRoleArn.length := by rw [hjump]; exact hj
    rw [factoryGet_eq_saml env cfg0 hv hs2]
    simp only [factorySamlClient]
    rw [if_pos hj2, hf]

theorem factoryGet_samlFetchError_witness :
    (∃ cl, factoryGet envSamlErr (some cfgSamlOnly) = .ok (.saml cl)
      ∧ cl.heldAssertion = none)
    ∧ factoryGet envSamlErr (some cfgSamlJump)
        = .error (.simple "SAML request error connection refused") :=
  ⟨(factoryGet_samlFetchError envSamlErr cfgSamlOnly
      (.simple "SAML request error connection refused") rfl (by decide) rfl).1 rfl,
   (factoryGet_samlFetchError envSamlErr cfgSamlJump
      (.simple "SAML request error connection refused") rfl (by decide) rfl).2 (by decide)⟩
